import Mathlib

/-!
Shallow embedding of `src/main.rs` (xobs/traceswotest): an STM32F1 SWO/ITM
trace bring-up (`swo_setup`) followed by an infinite driving loop that pushes
bytes through ITM stimulus channel 0.

Registers are 32-bit memory-mapped words; we model their values as `Nat`
(with bit operations `&&&`, `|||`, `^^^`; the 32-bit complement `!m`
is `NOT32 m = (2^32 - 1) ^^^ m`).  All values written by the code fit in
32 bits, and for the one subtraction (`divisor`) the claims are settled
against a separate checked-arithmetic model mirroring `u32` semantics.
-/

/-- Constant from src/main.rs line 30: `const SWO_BAUDRATE: u32 = 1 * 1000 * 1000;` -/
def SWO_BAUDRATE : Nat := 1 * 1000 * 1000

/-- Constant from src/main.rs line 31: the fixed unlock key written to the LAR
registers of the TPIU, DWT and ITM blocks. -/
def ARM_LAR_ACCESS_ENABLE : Nat := 0xc5acce55

/-- src/main.rs line 33: `const SCS_DEMCR_TRCENA: u32 = 1 << 24;` -/
def SCS_DEMCR_TRCENA : Nat := 1 <<< 24

/-- src/main.rs line 44: `const ITM_TCR_SWOENA: u32 = 1 << 4;` -/
def ITM_TCR_SWOENA : Nat := 1 <<< 4

/-- src/main.rs line 45: `const ITM_TCR_TXENA: u32 = 1 << 3;` -/
def ITM_TCR_TXENA : Nat := 1 <<< 3

/-- src/main.rs line 46: `const ITM_TCR_SYNCENA: u32 = 1 << 2;` -/
def ITM_TCR_SYNCENA : Nat := 1 <<< 2

/-- src/main.rs line 48: `const ITM_TCR_ITMENA: u32 = 1 << 0;` -/
def ITM_TCR_ITMENA : Nat := 1 <<< 0

/-- src/main.rs line 51: `const DBGMCU_CR_TRACE_IOEN: u32 = 0x00000020;` -/
def DBGMCU_CR_TRACE_IOEN : Nat := 0x00000020

/-- src/main.rs line 52: `const DBGMCU_CR_TRACE_MODE_MASK: u32 = 0x000000C0;` -/
def DBGMCU_CR_TRACE_MODE_MASK : Nat := 0x000000C0

/-- src/main.rs line 53: `const DBGMCU_CR_TRACE_MODE_ASYNC: u32 = 0x00000000;` -/
def DBGMCU_CR_TRACE_MODE_ASYNC : Nat := 0x00000000

/-- src/main.rs line 54: `const TPIU_FFCR_ENFCONT: u32 = 1 << 1;` -/
def TPIU_FFCR_ENFCONT : Nat := 1 <<< 1

/-- src/main.rs line 55: `const TPIU_SPPR_ASYNC_MANCHESTER: u32 = 1;` -/
def TPIU_SPPR_ASYNC_MANCHESTER : Nat := 1

/-- 32-bit bitwise complement: the Rust `!m` on `u32`, for `m < 2^32`. -/
def NOT32 (m : Nat) : Nat := (2 ^ 32 - 1) ^^^ m

/-- The memory-mapped registers touched by `swo_setup` (one field per fixed
address constant in src/main.rs lines 32-50); each holds a 32-bit word. -/
@[ext]
structure RegState where
  SCS_DEMCR : Nat
  TPIU_LAR : Nat
  TPIU_CSPSR : Nat
  TPIU_ACPR : Nat
  TPIU_SPPR : Nat
  TPIU_FFCR : Nat
  DWT_LAR : Nat
  DWT_CTRL : Nat
  ITM_LAR : Nat
  ITM_TPR : Nat
  ITM_TCR : Nat
  ITM_TER : Nat
  DBGMCU_CR : Nat
deriving DecidableEq, Repr

/-- Names of the registers, used to record the write trace of `swo_setup`. -/
inductive Reg where
  | SCS_DEMCR
  | TPIU_LAR
  | TPIU_CSPSR
  | TPIU_ACPR
  | TPIU_SPPR
  | TPIU_FFCR
  | DWT_LAR
  | DWT_CTRL
  | ITM_LAR
  | ITM_TPR
  | ITM_TCR
  | ITM_TER
  | DBGMCU_CR
deriving DecidableEq, Repr

/-- Embedding of `swo_setup` (src/main.rs lines 58-92), line by line in
program order.  Each `write_volatile` becomes a record update together with
an entry `(register, value)` appended to the write trace; each
`read_volatile` reads the current field.  Returns the final register state
and the ordered list of writes performed. -/
def swo_setup_full (st0 : RegState) (clock_frequency : Nat) : RegState × List (Reg × Nat) :=
  -- line 61: SCS_DEMCR.write_volatile(SCS_DEMCR.read_volatile() | SCS_DEMCR_TRCENA)
  let v1 := st0.SCS_DEMCR ||| SCS_DEMCR_TRCENA
  let st1 := { st0 with SCS_DEMCR := v1 }
  -- line 65: let divisor = (clock_frequency / SWO_BAUDRATE) - 1
  let divisor := clock_frequency / SWO_BAUDRATE - 1
  -- line 67: TPIU_LAR.write_volatile(ARM_LAR_ACCESS_ENABLE)
  let st2 := { st1 with TPIU_LAR := ARM_LAR_ACCESS_ENABLE }
  -- line 68: TPIU_CSPSR.write_volatile(1)
  let st3 := { st2 with TPIU_CSPSR := 1 }
  -- line 69: TPIU_ACPR.write_volatile(divisor)
  let st4 := { st3 with TPIU_ACPR := divisor }
  -- line 70: TPIU_SPPR.write_volatile(TPIU_SPPR_ASYNC_MANCHESTER)
  let st5 := { st4 with TPIU_SPPR := TPIU_SPPR_ASYNC_MANCHESTER }
  -- line 72: TPIU_FFCR.write_volatile(TPIU_FFCR.read_volatile() & !TPIU_FFCR_ENFCONT)
  let v6 := st5.TPIU_FFCR &&& NOT32 TPIU_FFCR_ENFCONT
  let st6 := { st5 with TPIU_FFCR := v6 }
  -- line 75: DWT_LAR.write_volatile(ARM_LAR_ACCESS_ENABLE)
  let st7 := { st6 with DWT_LAR := ARM_LAR_ACCESS_ENABLE }
  -- line 76: DWT_CTRL.write_volatile(DWT_CTRL.read_volatile() | 0x000003fe)
  let v8 := st7.DWT_CTRL ||| 0x000003fe
  let st8 := { st7 with DWT_CTRL := v8 }
  -- line 78: ITM_LAR.write_volatile(ARM_LAR_ACCESS_ENABLE)
  let st9 := { st8 with ITM_LAR := ARM_LAR_ACCESS_ENABLE }
  -- line 80: ITM_TPR.write_volatile(0x0000000f)
  let st10 := { st9 with ITM_TPR := 0x0000000f }
  -- lines 81-83: ITM_TCR.write_volatile(ITMENA | SYNCENA | TXENA | SWOENA | (1 << 16))
  let v11 := ITM_TCR_ITMENA ||| ITM_TCR_SYNCENA ||| ITM_TCR_TXENA ||| ITM_TCR_SWOENA ||| (1 <<< 16)
  let st11 := { st10 with ITM_TCR := v11 }
  -- line 84: ITM_TER.write_volatile(1)
  let st12 := { st11 with ITM_TER := 1 }
  -- line 87: DBGMCU_CR.write_volatile(DBGMCU_CR.read_volatile() & !DBGMCU_CR_TRACE_MODE_MASK)
  let v13 := st12.DBGMCU_CR &&& NOT32 DBGMCU_CR_TRACE_MODE_MASK
  let st13 := { st12 with DBGMCU_CR := v13 }
  -- lines 88-90: DBGMCU_CR.write_volatile(DBGMCU_CR.read_volatile() | TRACE_IOEN | TRACE_MODE_ASYNC)
  let v14 := st13.DBGMCU_CR ||| DBGMCU_CR_TRACE_IOEN ||| DBGMCU_CR_TRACE_MODE_ASYNC
  let st14 := { st13 with DBGMCU_CR := v14 }
  (st14,
    [(Reg.SCS_DEMCR, v1),
     (Reg.TPIU_LAR, ARM_LAR_ACCESS_ENABLE),
     (Reg.TPIU_CSPSR, 1),
     (Reg.TPIU_ACPR, divisor),
     (Reg.TPIU_SPPR, TPIU_SPPR_ASYNC_MANCHESTER),
     (Reg.TPIU_FFCR, v6),
     (Reg.DWT_LAR, ARM_LAR_ACCESS_ENABLE),
     (Reg.DWT_CTRL, v8),
     (Reg.ITM_LAR, ARM_LAR_ACCESS_ENABLE),
     (Reg.ITM_TPR, 0x0000000f),
     (Reg.ITM_TCR, v11),
     (Reg.ITM_TER, 1),
     (Reg.DBGMCU_CR, v13),
     (Reg.DBGMCU_CR, v14)])

/-- Final register state after `swo_setup`. -/
def swo_setup (st : RegState) (clock_frequency : Nat) : RegState :=
  (swo_setup_full st clock_frequency).1

/-- Ordered write trace of `swo_setup`. -/
def swoTrace (st : RegState) (clock_frequency : Nat) : List (Reg × Nat) :=
  (swo_setup_full st clock_frequency).2

example :
    (swo_setup ⟨0,0,0,0,0,0,0,0,0,0,0,0,0⟩ 8000000).TPIU_ACPR = 7 := by decide

/-- Rust `u32::checked_sub` semantics: `none` exactly when the subtraction
underflows.  In overflow-checked builds an underflowing `-` panics. -/
def checkedSub (a b : Nat) : Option Nat :=
  if a < b then none else some (a - b)

/-- The divisor computation of src/main.rs line 65,
`(clock_frequency / SWO_BAUDRATE) - 1`, under `u32` overflow-checked
semantics: `u32` division never overflows, and the subtraction is the one
operation that can underflow. -/
def swoDivisorChecked (clock_frequency : Nat) : Option Nat :=
  checkedSub (clock_frequency / SWO_BAUDRATE) 1

/-- Modelled from the spec: the StimulusWriter word packing (section 4.2).
The source delegates to `cortex_m::itm::write_all` (external crate, not in
this repository); per the spec, "bytes are packed 4-to-a-word (word-aligned;
a final partial group is zero-padded)".  A word is assembled from up to four
bytes, least-significant byte first, missing bytes reading as zero. -/
def leWord (l : List Nat) : Nat :=
  l.getD 0 0 + 256 * l.getD 1 0 + 65536 * l.getD 2 0 + 16777216 * l.getD 3 0

/-- Modelled from the spec: pack a byte sequence into the 32-bit words pushed
into the channel FIFO, four bytes to a word, the final partial group
zero-padded (spec section 4.2). -/
def packWords : List Nat → List Nat
  | [] => []
  | [a] => [leWord [a]]
  | [a, b] => [leWord [a, b]]
  | [a, b, c] => [leWord [a, b, c]]
  | a :: b :: c :: d :: rest => leWord [a, b, c, d] :: packWords rest

/-- Decode one 32-bit word back into its four little-endian bytes. -/
def unpackWord (w : Nat) : List Nat :=
  [w % 256, w / 256 % 256, w / 65536 % 256, w / 16777216 % 256]

/-- Decode a word sequence back into bytes (used for the round-trip
"no byte dropped or reordered" property). -/
def unpackWords (ws : List Nat) : List Nat :=
  ws.flatMap unpackWord

/-- Modelled from the spec: one word push against a mock FIFO whose ready
poll reports "full" for the first `n` polls and "ready" thereafter (spec
sections 4.2 and 8).  The writer polls; if the FIFO reports full it spins
and polls again.  Returns the number of polls performed before the push
succeeded, paired with the pushed word. -/
def pushWord : Nat → Nat → Nat × Nat
  | 0, w => (1, w)
  | n + 1, w => let r := pushWord n w; (r.1 + 1, r.2)

/-- Modelled from the spec: `write(channel, bytes)` of the StimulusWriter
(spec section 4.2): pack the bytes into words and push each word through the
spinning FIFO poll, the mock FIFO reporting "full" for the first `n` polls
before each push.  Returns the list of (polls performed, word pushed). -/
def stimWrite (n : Nat) (bytes : List Nat) : List (Nat × Nat) :=
  (packWords bytes).map (pushWord n)

/-- The driving loop's state (src/main.rs lines 131-137): the 8-bit counter
`b` and the sequence of 32-bit words pushed so far into stimulus channel 0. -/
structure LoopState where
  b : Nat
  chan0 : List Nat
deriving DecidableEq, Repr

/-- One `write_all` call on channel 0: appends the packed words of `bytes`
to the channel-0 push sequence. -/
def writeAll (chan : List Nat) (bytes : List Nat) : List Nat :=
  chan ++ packWords bytes

/-- One iteration of the loop body (src/main.rs lines 132-137):
`write_all(stim, &[b, b, b, b])` twice, then `b = b.wrapping_add(1)`. -/
def loopStep (s : LoopState) : LoopState :=
  let c1 := writeAll s.chan0 [s.b, s.b, s.b, s.b]
  let c2 := writeAll c1 [s.b, s.b, s.b, s.b]
  { b := (s.b + 1) % 256, chan0 := c2 }

/-- Loop entry state: `let mut b = 0x80u8;` with nothing yet pushed
(src/main.rs line 131). -/
def loopInit : LoopState := { b := 0x80, chan0 := [] }

/-- State after `k` iterations of the unconditional `loop` body. -/
def loopRun : Nat → LoopState
  | 0 => loopInit
  | k + 1 => loopStep (loopRun k)

/-- Modelled from the spec: the take-once PeripheralOwnership resource
(spec sections 3 and 7).  The source calls `cortex_m::Peripherals::take()`
(external crate, not in this repository); per the spec, "exactly one
execution context may hold the handle...; attempting to acquire it twice
fails".  The state is whether ownership has already been taken; on success
the returned state records it taken. -/
def takeOwnership (taken : Bool) : Option Unit × Bool :=
  if taken then (none, taken) else (some (), true)

/-- The start of `main` (src/main.rs line 103): `Peripherals::take().unwrap()`.
`unwrap` of `None` panics, so the process cannot proceed; the pair counts
how many acquisition attempts were performed (always exactly one). -/
def mainStart (taken : Bool) : Option Bool × Nat :=
  match takeOwnership taken with
  | (none, _) => (none, 1)
  | (some _, taken2) => (some taken2, 1)

/-- The whole process at the level the ownership claim needs: acquisition at
start, then (only if acquisition succeeded) bring-up and `k` iterations of
the driving loop, the ownership handle carried unchanged throughout. -/
def processRun (taken : Bool) (st : RegState) (clock : Nat) (k : Nat) :
    Option (Bool × RegState × LoopState) :=
  match (mainStart taken).1 with
  | none => none
  | some taken2 => some (taken2, swo_setup st clock, loopRun k)

example : stimWrite 2 [1, 2, 3, 4, 5] = [(3, 0x04030201), (3, 5)] := by decide
example : (loopRun 1).chan0 = [0x80808080, 0x80808080] := by decide
example : (loopRun 2).b = 0x82 := by decide

/-! ### Helper lemmas on `Nat` bit operations -/

lemma or_idem (x m : Nat) : (x ||| m) ||| m = x ||| m := by
  rw [Nat.or_assoc, Nat.or_self]

lemma and_idem (x m : Nat) : (x &&& m) &&& m = x &&& m := by
  rw [Nat.and_assoc, Nat.and_self]

lemma and_then_or_absorb (x p : Nat) : (x &&& p) ||| p = p := by
  apply Nat.eq_of_testBit_eq
  intro i
  simp only [Nat.testBit_lor, Nat.testBit_land]
  cases x.testBit i <;> cases p.testBit i <;> rfl

lemma clear_then_set_idem (x n p : Nat) (hpn : p &&& n = p) :
    (((x &&& n) ||| p) &&& n) ||| p = (x &&& n) ||| p := by
  rw [Nat.and_distrib_right, Nat.and_assoc, Nat.and_self, hpn, Nat.or_assoc, Nat.or_self]

lemma clear_then_set_masked (x n p M : Nat) (hnM : n &&& M = 0) (hpM : p &&& M = 0) :
    ((x &&& n) ||| p) &&& M = 0 := by
  rw [Nat.and_distrib_right, Nat.and_assoc, hnM, Nat.and_zero, hpM, Nat.or_self]

lemma clear_then_set_bit (x n p : Nat) (hnp : n &&& p = p) :
    ((x &&& n) ||| p) &&& p = p := by
  rw [Nat.and_distrib_right, Nat.and_assoc, hnp, Nat.and_self, and_then_or_absorb]

/-! ### C1: divisor computation -/

/-- C1: For every clock frequency `f` strictly greater than the target baud
rate (1,000,000 Hz), the divisor computed by `swo_setup` equals
`f / 1,000,000 - 1` under exact integer division, and this value is the one
written to the TPIU clock-divisor register `TPIU_ACPR` (it is both the final
value of that register and the value of the one write-trace entry targeting
it). -/
theorem swo_divisor_correct (st : RegState) (clock : Nat) (h : 1000000 < clock) :
    (swo_setup st clock).TPIU_ACPR = clock / 1000000 - 1 ∧
    (Reg.TPIU_ACPR, clock / 1000000 - 1) ∈ swoTrace st clock := by
  constructor
  · rfl
  · simp [swoTrace, swo_setup_full, SWO_BAUDRATE]

/-- Witness for C1 at clock = 8,000,000 Hz. -/
theorem swo_divisor_correct_witness :
    (swo_setup ⟨0,0,0,0,0,0,0,0,0,0,0,0,0⟩ 8000000).TPIU_ACPR = 8000000 / 1000000 - 1 ∧
    (Reg.TPIU_ACPR, 8000000 / 1000000 - 1) ∈ swoTrace ⟨0,0,0,0,0,0,0,0,0,0,0,0,0⟩ 8000000 :=
  swo_divisor_correct ⟨0,0,0,0,0,0,0,0,0,0,0,0,0⟩ 8000000 (by decide)

/-! ### C2: end-to-end bring-up scenario at 8 MHz -/

/-- C2: After `swo_setup` with clock = 8,000,000 Hz (target baud =
1,000,000), the divisor register `TPIU_ACPR` holds 7; `ITM_TER` has bit 0
set and no other bit set (its value is exactly 1); `ITM_TCR` holds exactly
the bitwise union of `ITM_TCR_ITMENA`, `ITM_TCR_SYNCENA`, `ITM_TCR_TXENA`,
`ITM_TCR_SWOENA` and the fixed prescaler field `1 <<< 16`; and `DBGMCU_CR`
has its trace-mode field cleared to the async value (0) and its IOEN bit
set — for every initial register state. -/
theorem swo_setup_scenario_8mhz (st : RegState) :
    (swo_setup st 8000000).TPIU_ACPR = 7 ∧
    (swo_setup st 8000000).ITM_TER = 1 ∧
    (swo_setup st 8000000).ITM_TCR =
      (ITM_TCR_ITMENA ||| ITM_TCR_SYNCENA ||| ITM_TCR_TXENA ||| ITM_TCR_SWOENA ||| (1 <<< 16)) ∧
    (swo_setup st 8000000).DBGMCU_CR &&& DBGMCU_CR_TRACE_MODE_MASK = DBGMCU_CR_TRACE_MODE_ASYNC ∧
    (swo_setup st 8000000).DBGMCU_CR &&& DBGMCU_CR_TRACE_IOEN = DBGMCU_CR_TRACE_IOEN := by
  refine ⟨rfl, rfl, rfl, ?_, ?_⟩
  · show ((st.DBGMCU_CR &&& NOT32 DBGMCU_CR_TRACE_MODE_MASK) ||| DBGMCU_CR_TRACE_IOEN |||
        DBGMCU_CR_TRACE_MODE_ASYNC) &&& DBGMCU_CR_TRACE_MODE_MASK = DBGMCU_CR_TRACE_MODE_ASYNC
    rw [show DBGMCU_CR_TRACE_MODE_ASYNC = 0 from rfl, Nat.or_zero]
    exact clear_then_set_masked _ _ _ _ (by decide) (by decide)
  · show ((st.DBGMCU_CR &&& NOT32 DBGMCU_CR_TRACE_MODE_MASK) ||| DBGMCU_CR_TRACE_IOEN |||
        DBGMCU_CR_TRACE_MODE_ASYNC) &&& DBGMCU_CR_TRACE_IOEN = DBGMCU_CR_TRACE_IOEN
    rw [show DBGMCU_CR_TRACE_MODE_ASYNC = 0 from rfl, Nat.or_zero]
    exact clear_then_set_bit _ _ _ (by decide)

/-! ### C9: divisor underflow below the target baud rate -/

/-- C9: For every clock frequency strictly below the target baud rate
(1,000,000 Hz) the integer division in the divisor computation yields 0 and
the `u32` subtraction `0 - 1` underflows (`checked_sub` returns `none`, a
panic in overflow-checked builds); for frequencies at or above the baud rate
no underflow occurs and the checked computation returns a value. -/
theorem swo_divisor_underflow (f : Nat) :
    (f < 1000000 → f / SWO_BAUDRATE = 0 ∧ swoDivisorChecked f = none) ∧
    (1000000 ≤ f → swoDivisorChecked f = some (f / 1000000 - 1)) := by
  constructor
  · intro h
    have hdiv : f / SWO_BAUDRATE = 0 := Nat.div_eq_of_lt h
    refine ⟨hdiv, ?_⟩
    simp [swoDivisorChecked, checkedSub, hdiv]
  · intro h
    have hdiv : 1 ≤ f / SWO_BAUDRATE := by
      rw [Nat.one_le_div_iff (by decide : 0 < SWO_BAUDRATE)]
      exact h
    simp only [swoDivisorChecked, checkedSub, SWO_BAUDRATE]
    rw [if_neg (by omega)]

/-- Witness for C9 at f = 999,999 (underflow) and f = 8,000,000 (no
underflow). -/
theorem swo_divisor_underflow_witness :
    (999999 / SWO_BAUDRATE = 0 ∧ swoDivisorChecked 999999 = none) ∧
    swoDivisorChecked 8000000 = some (8000000 / 1000000 - 1) :=
  ⟨(swo_divisor_underflow 999999).1 (by decide),
   (swo_divisor_underflow 8000000).2 (by decide)⟩

/-! ### C7 and C10: the driving loop -/

/-- C7: Every iteration of the driving loop writes a fixed 8-byte payload
(4 repeated bytes, twice) through the stimulus writer on channel 0, then
advances an 8-bit counter with wraparound (when the counter is 255 the next
value is 0), and repeats unconditionally: the state after `k + 1` iterations
is always one more `loopStep` applied to the state after `k` iterations,
with no exit transition. -/
theorem loop_iteration_behavior (s : LoopState) :
    (loopStep s).chan0 =
      s.chan0 ++ (packWords (List.replicate 4 s.b) ++ packWords (List.replicate 4 s.b)) ∧
    (loopStep s).b = (s.b + 1) % 256 ∧
    (s.b = 255 → (loopStep s).b = 0) ∧
    (∀ k, loopRun (k + 1) = loopStep (loopRun k)) := by
  refine ⟨?_, rfl, ?_, fun k => rfl⟩
  · show writeAll (writeAll s.chan0 [s.b, s.b, s.b, s.b]) [s.b, s.b, s.b, s.b] = _
    simp [writeAll, List.replicate, List.append_assoc]
  · intro h
    show (s.b + 1) % 256 = 0
    rw [h]

/-- Witness for C7 at the wraparound state, with the counter-equals-255
hypothesis discharged and the unconditional-repeat conjunct taken at
iteration 0. -/
theorem loop_iteration_behavior_witness :
    (loopStep ⟨255, []⟩).chan0 =
      ([] : List Nat) ++ (packWords (List.replicate 4 255) ++ packWords (List.replicate 4 255)) ∧
    (loopStep ⟨255, []⟩).b = (255 + 1) % 256 ∧
    (loopStep (⟨255, []⟩ : LoopState)).b = 0 ∧
    loopRun (0 + 1) = loopStep (loopRun 0) :=
  ⟨(loop_iteration_behavior ⟨255, []⟩).1,
   (loop_iteration_behavior ⟨255, []⟩).2.1,
   (loop_iteration_behavior ⟨255, []⟩).2.2.1 rfl,
   (loop_iteration_behavior ⟨255, []⟩).2.2.2 0⟩

/-- C10: The driving loop's 8-bit counter is initialized to 0x80, not 0:
after `k` iterations the counter reads `(0x80 + k) % 256`, the first
iteration's payload consists of words packed from the byte 0x80 only, and
iteration `k` (counting from 0) appends the payload packed from the byte
`(0x80 + k) % 256`. -/
theorem loop_counter_starts_at_0x80 (k : Nat) :
    (loopRun 0).b = 0x80 ∧
    (loopRun k).b = (0x80 + k) % 256 ∧
    (loopRun 1).chan0 =
      packWords (List.replicate 4 0x80) ++ packWords (List.replicate 4 0x80) ∧
    (loopRun (k + 1)).chan0 = (loopRun k).chan0 ++
      (packWords (List.replicate 4 ((0x80 + k) % 256)) ++
       packWords (List.replicate 4 ((0x80 + k) % 256))) := by
  have hb : ∀ m, (loopRun m).b = (0x80 + m) % 256 := by
    intro m
    induction m with
    | zero => decide
    | succ m ih =>
      show ((loopRun m).b + 1) % 256 = (0x80 + (m + 1)) % 256
      rw [ih]
      omega
  refine ⟨rfl, hb k, by decide, ?_⟩
  show writeAll (writeAll (loopRun k).chan0 _) _ = _
  rw [writeAll, writeAll, List.append_assoc, hb k]
  simp [List.replicate]

/-! ### C8: take-once peripheral ownership -/

/-- C8: Peripheral-ownership acquisition at process start fails fatally
when ownership was already taken (the process reaches neither bring-up nor
the driving loop: `processRun` is `none`); in every run where acquisition
succeeds, exactly one acquisition attempt is performed and the handle is
held (taken) for the entire process lifetime, through bring-up and every
iteration of the driving loop. -/
theorem ownership_take_once (taken : Bool) (st : RegState) (clock k : Nat) :
    (mainStart taken).2 = 1 ∧
    (taken = true → processRun taken st clock k = none) ∧
    (taken = false →
      processRun taken st clock k = some (true, swo_setup st clock, loopRun k)) := by
  cases taken <;>
    simp [mainStart, takeOwnership, processRun]

/-- Witness for C8: acquisition on an already-taken resource aborts;
acquisition on a fresh resource performs one attempt, succeeds, and the
handle stays taken through bring-up and the loop. -/
theorem ownership_take_once_witness :
    (mainStart true).2 = 1 ∧
    processRun true ⟨0,0,0,0,0,0,0,0,0,0,0,0,0⟩ 8000000 3 = none ∧
    processRun false ⟨0,0,0,0,0,0,0,0,0,0,0,0,0⟩ 8000000 3 =
      some (true, swo_setup ⟨0,0,0,0,0,0,0,0,0,0,0,0,0⟩ 8000000, loopRun 3) :=
  ⟨(ownership_take_once true ⟨0,0,0,0,0,0,0,0,0,0,0,0,0⟩ 8000000 3).1,
   (ownership_take_once true ⟨0,0,0,0,0,0,0,0,0,0,0,0,0⟩ 8000000 3).2.1 rfl,
   (ownership_take_once false ⟨0,0,0,0,0,0,0,0,0,0,0,0,0⟩ 8000000 3).2.2 rfl⟩

/-! ### C3: unlock-before-configure and step ordering -/

/-- C3: In the write sequence performed by `swo_setup`, the unlock-key write
to each protected block (TPIU formatter, DWT sync source, ITM
instrumentation unit) occurs strictly before any configuration write to that
same block, the unlock entries carry the fixed key
`ARM_LAR_ACCESS_ENABLE`, and the five algorithm steps occur in the mandated
order: the debug-enable (`SCS_DEMCR`) write first, then the formatter
(TPIU) writes, then the sync source (DWT) writes, then the instrumentation
unit (ITM) writes, then the debug-control (`DBGMCU_CR`) writes last. -/
theorem swo_write_ordering (st : RegState) (clock : Nat) :
    (swoTrace st clock).map Prod.fst =
      [Reg.SCS_DEMCR, Reg.TPIU_LAR, Reg.TPIU_CSPSR, Reg.TPIU_ACPR, Reg.TPIU_SPPR,
       Reg.TPIU_FFCR, Reg.DWT_LAR, Reg.DWT_CTRL, Reg.ITM_LAR, Reg.ITM_TPR,
       Reg.ITM_TCR, Reg.ITM_TER, Reg.DBGMCU_CR, Reg.DBGMCU_CR] ∧
    (swoTrace st clock)[1]? = some (Reg.TPIU_LAR, ARM_LAR_ACCESS_ENABLE) ∧
    (swoTrace st clock)[6]? = some (Reg.DWT_LAR, ARM_LAR_ACCESS_ENABLE) ∧
    (swoTrace st clock)[8]? = some (Reg.ITM_LAR, ARM_LAR_ACCESS_ENABLE) ∧
    (let rs := (swoTrace st clock).map Prod.fst
     rs.indexOf Reg.TPIU_LAR < rs.indexOf Reg.TPIU_CSPSR ∧
     rs.indexOf Reg.TPIU_LAR < rs.indexOf Reg.TPIU_ACPR ∧
     rs.indexOf Reg.TPIU_LAR < rs.indexOf Reg.TPIU_SPPR ∧
     rs.indexOf Reg.TPIU_LAR < rs.indexOf Reg.TPIU_FFCR ∧
     rs.indexOf Reg.DWT_LAR < rs.indexOf Reg.DWT_CTRL ∧
     rs.indexOf Reg.ITM_LAR < rs.indexOf Reg.ITM_TPR ∧
     rs.indexOf Reg.ITM_LAR < rs.indexOf Reg.ITM_TCR ∧
     rs.indexOf Reg.ITM_LAR < rs.indexOf Reg.ITM_TER ∧
     rs.indexOf Reg.SCS_DEMCR = 0 ∧
     rs.indexOf Reg.TPIU_FFCR < rs.indexOf Reg.DWT_LAR ∧
     rs.indexOf Reg.DWT_CTRL < rs.indexOf Reg.ITM_LAR ∧
     rs.indexOf Reg.ITM_TER < rs.indexOf Reg.DBGMCU_CR ∧
     rs.drop 12 = [Reg.DBGMCU_CR, Reg.DBGMCU_CR] ∧
     rs.take 12 =
       [Reg.SCS_DEMCR, Reg.TPIU_LAR, Reg.TPIU_CSPSR, Reg.TPIU_ACPR, Reg.TPIU_SPPR,
        Reg.TPIU_FFCR, Reg.DWT_LAR, Reg.DWT_CTRL, Reg.ITM_LAR, Reg.ITM_TPR,
        Reg.ITM_TCR, Reg.ITM_TER]) := by
  refine ⟨rfl, rfl, rfl, rfl, ?_⟩
  rw [show (swoTrace st clock).map Prod.fst =
      [Reg.SCS_DEMCR, Reg.TPIU_LAR, Reg.TPIU_CSPSR, Reg.TPIU_ACPR, Reg.TPIU_SPPR,
       Reg.TPIU_FFCR, Reg.DWT_LAR, Reg.DWT_CTRL, Reg.ITM_LAR, Reg.ITM_TPR,
       Reg.ITM_TCR, Reg.ITM_TER, Reg.DBGMCU_CR, Reg.DBGMCU_CR] from rfl]
  decide

/-! ### C4: bring-up idempotence -/

lemma dbg_double (x : Nat) :
    (((x &&& NOT32 DBGMCU_CR_TRACE_MODE_MASK) ||| DBGMCU_CR_TRACE_IOEN |||
        DBGMCU_CR_TRACE_MODE_ASYNC) &&& NOT32 DBGMCU_CR_TRACE_MODE_MASK) |||
        DBGMCU_CR_TRACE_IOEN ||| DBGMCU_CR_TRACE_MODE_ASYNC =
      (x &&& NOT32 DBGMCU_CR_TRACE_MODE_MASK) ||| DBGMCU_CR_TRACE_IOEN |||
        DBGMCU_CR_TRACE_MODE_ASYNC := by
  rw [show DBGMCU_CR_TRACE_MODE_ASYNC = 0 from rfl, Nat.or_zero, Nat.or_zero]
  exact clear_then_set_idem x _ _ (by decide)

/-- C4: Bring-up is idempotent: for every register state and every clock
frequency satisfying the precondition (`clock` nonzero), invoking
`swo_setup` twice with the same clock value leaves the register set in the
same final state as invoking it once. -/
theorem swo_setup_idempotent (st : RegState) (clock : Nat) (h : 0 < clock) :
    swo_setup (swo_setup st clock) clock = swo_setup st clock := by
  apply RegState.ext
  · exact or_idem st.SCS_DEMCR SCS_DEMCR_TRCENA
  · rfl
  · rfl
  · rfl
  · rfl
  · exact and_idem st.TPIU_FFCR (NOT32 TPIU_FFCR_ENFCONT)
  · rfl
  · exact or_idem st.DWT_CTRL 0x000003fe
  · rfl
  · rfl
  · rfl
  · rfl
  · exact dbg_double st.DBGMCU_CR

/-- Witness for C4 at clock = 8,000,000 Hz. -/
theorem swo_setup_idempotent_witness :
    swo_setup (swo_setup ⟨1,2,3,4,5,6,7,8,9,10,11,12,13⟩ 8000000) 8000000 =
      swo_setup ⟨1,2,3,4,5,6,7,8,9,10,11,12,13⟩ 8000000 :=
  swo_setup_idempotent ⟨1,2,3,4,5,6,7,8,9,10,11,12,13⟩ 8000000 (by decide)

/-! ### Helper lemmas for the StimulusWriter model -/

lemma pushWord_eq : ∀ (n w : Nat), pushWord n w = (n + 1, w)
  | 0, _ => rfl
  | n + 1, w => by
      simp [pushWord, pushWord_eq n w]

lemma packWords_length : ∀ l : List Nat, (packWords l).length = (l.length + 3) / 4
  | [] => rfl
  | [_] => by simp [packWords]
  | [_, _] => by simp [packWords]
  | [_, _, _] => by simp [packWords]
  | _ :: _ :: _ :: _ :: rest => by
      have ih := packWords_length rest
      simp only [packWords, List.length_cons, ih]
      omega

lemma packWords_append_zeros : ∀ (l : List Nat) (k : Nat), k < 4 → (l.length + k) % 4 = 0 →
    packWords (l ++ List.replicate k 0) = packWords l
  | [], k, hk, hm => by
      have hk0 : k = 0 := by simp at hm; omega
      subst hk0
      rfl
  | [a], k, hk, hm => by
      have hk3 : k = 3 := by simp at hm; omega
      subst hk3
      rfl
  | [a, b], k, hk, hm => by
      have hk2 : k = 2 := by simp at hm; omega
      subst hk2
      rfl
  | [a, b, c], k, hk, hm => by
      have hk1 : k = 1 := by simp at hm; omega
      subst hk1
      rfl
  | a :: b :: c :: d :: rest, k, hk, hm => by
      have hm2 : (rest.length + k) % 4 = 0 := by simp at hm; omega
      show packWords (a :: b :: c :: d :: (rest ++ List.replicate k 0)) = _
      simp only [packWords]
      rw [packWords_append_zeros rest k hk hm2]

lemma unpack_pack : ∀ l : List Nat, (∀ b ∈ l, b < 256) →
    (unpackWords (packWords l)).take l.length = l
  | [], _ => rfl
  | [a], h => by
      have ha : a < 256 := h a (by simp)
      simp [packWords, unpackWords, unpackWord, leWord]
      omega
  | [a, b], h => by
      have ha : a < 256 := h a (by simp)
      have hb : b < 256 := h b (by simp)
      simp [packWords, unpackWords, unpackWord, leWord]
      omega
  | [a, b, c], h => by
      have ha : a < 256 := h a (by simp)
      have hb : b < 256 := h b (by simp)
      have hc : c < 256 := h c (by simp)
      simp [packWords, unpackWords, unpackWord, leWord]
      omega
  | a :: b :: c :: d :: rest, h => by
      have ha : a < 256 := h a (by simp)
      have hb : b < 256 := h b (by simp)
      have hc : c < 256 := h c (by simp)
      have hd : d < 256 := h d (by simp)
      have ih := unpack_pack rest (fun x hx => h x (by simp [hx]))
      have hw : unpackWord (leWord [a, b, c, d]) = [a, b, c, d] := by
        simp [unpackWord, leWord, List.getD]
        omega
      rw [show packWords (a :: b :: c :: d :: rest) = leWord [a, b, c, d] :: packWords rest
            from rfl,
          show unpackWords (leWord [a, b, c, d] :: packWords rest) =
            unpackWord (leWord [a, b, c, d]) ++ unpackWords (packWords rest) by
            simp [unpackWords],
          hw]
      show ([a, b, c, d] ++ unpackWords (packWords rest)).take (rest.length + 1 + 1 + 1 + 1) =
        a :: b :: c :: d :: rest
      simp only [List.cons_append, List.nil_append, List.take_succ_cons]
      rw [ih]

/-! ### C5: backpressure polling and byte preservation -/

/-- C5: For every N ≥ 0, given a mock FIFO whose ready-status poll reports
"full" for the first N polls and "ready" thereafter, the stimulus write
performs exactly N + 1 polls before each word push succeeds, and the pushed
words decode back to the input byte sequence (truncated at its original
length) — no byte is dropped or reordered. -/
theorem stimWrite_backpressure_roundtrip (n : Nat) (bytes : List Nat)
    (hb : ∀ b ∈ bytes, b < 256) :
    (∀ p ∈ stimWrite n bytes, p.1 = n + 1) ∧
    (stimWrite n bytes).map Prod.snd = packWords bytes ∧
    (unpackWords ((stimWrite n bytes).map Prod.snd)).take bytes.length = bytes := by
  have hmap : (stimWrite n bytes).map Prod.snd = packWords bytes := by
    simp [stimWrite, List.map_map, Function.comp_def, pushWord_eq]
  refine ⟨?_, hmap, ?_⟩
  · intro p hp
    rcases List.mem_map.mp hp with ⟨w, _, rfl⟩
    rw [pushWord_eq n w]
  · rw [hmap]
    exact unpack_pack bytes hb

/-- Witness for C5 at N = 2 and bytes = [1, 2, 3, 4, 5], with the
byte-bound hypothesis discharged and the per-push poll count instantiated at
the first push of the run. -/
theorem stimWrite_backpressure_roundtrip_witness :
    (((3, 0x04030201) : Nat × Nat).1 = 2 + 1) ∧
    (stimWrite 2 [1, 2, 3, 4, 5]).map Prod.snd = packWords [1, 2, 3, 4, 5] ∧
    (unpackWords ((stimWrite 2 [1, 2, 3, 4, 5]).map Prod.snd)).take
      (List.length [1, 2, 3, 4, 5]) = [1, 2, 3, 4, 5] :=
  ⟨(stimWrite_backpressure_roundtrip 2 [1, 2, 3, 4, 5] (by decide)).1
      (3, 0x04030201) (by decide),
   (stimWrite_backpressure_roundtrip 2 [1, 2, 3, 4, 5] (by decide)).2.1,
   (stimWrite_backpressure_roundtrip 2 [1, 2, 3, 4, 5] (by decide)).2.2⟩

/-! ### C6: zero-padding and word count -/

/-- C6: For every input byte sequence whose length is not a multiple of 4,
the stimulus write zero-pads the final partial group up to a 4-byte boundary
(packing the zero-padded sequence yields the same words) and pushes exactly
`⌈len/4⌉ = (len + 3) / 4` 32-bit words into the channel FIFO (for every
poll count N of the mock FIFO). -/
theorem stimWrite_pads_partial_group (bytes : List Nat) (h : bytes.length % 4 ≠ 0) :
    packWords (bytes ++ List.replicate (4 - bytes.length % 4) 0) = packWords bytes ∧
    ∀ n, (stimWrite n bytes).length = (bytes.length + 3) / 4 := by
  constructor
  · exact packWords_append_zeros bytes _ (by omega) (by omega)
  · intro n
    simp [stimWrite, packWords_length bytes]

/-- Witness for C6 at bytes = [1, 2, 3, 4, 5] (length 5, 5 % 4 = 1 ≠ 0),
the word-count conjunct instantiated at poll count N = 2. -/
theorem stimWrite_pads_partial_group_witness :
    packWords ([1, 2, 3, 4, 5] ++
      List.replicate (4 - (List.length [1, 2, 3, 4, 5]) % 4) 0) = packWords [1, 2, 3, 4, 5] ∧
    (stimWrite 2 [1, 2, 3, 4, 5]).length = ((List.length [1, 2, 3, 4, 5]) + 3) / 4 :=
  ⟨(stimWrite_pads_partial_group [1, 2, 3, 4, 5] (by decide)).1,
   (stimWrite_pads_partial_group [1, 2, 3, 4, 5] (by decide)).2 2⟩
